import Mathlib

/-!
Verification of the device capability model and state-reconciliation engine of
`src/emulated_hue/controllers/devices.py`.

The Python classes `OnOffDevice`, `BrightnessDevice`, `CTDevice`, `RGBDevice`
and `RGBWDevice` are embedded as pure functions over an explicit `Device`
record holding the three state slots (`_hass_state`, `_control_state`,
`_config_state`), the persisted `config["hass_state"]` block, and the throttle
clock.  Suspending platform calls are modelled by passing the fetched
attribute mapping (`HassStateDict`) and the success/failure of the outbound
command as explicit arguments; exceptions are modelled with `Except`.
-/

/-- Modelled from the spec: `DeviceState` lives in `models.py`, which is not
under `src/`.  Per the spec data model every field is optional (absence means
"no opinion") and two values are equal iff every field compares equal.
Python floats are modelled as `Rat`; the list-valued colour fields are
modelled as tuples (Python list equality is element-wise, as tuple equality
is here). -/
structure DeviceState where
  power_state : Option Bool := none
  reachable : Option Bool := none
  brightness : Option Int := none
  color_temp : Option Int := none
  hue_saturation : Option (Int × Int) := none
  xy_color : Option (Rat × Rat) := none
  rgb_color : Option (Int × Int × Int) := none
  effect : Option String := none
  flash : Option String := none
  transition_seconds : Option Rat := none
  deriving DecidableEq, Repr, Inhabited

/-- Modelled from the spec: the supported-colour-mode tags reported by the
platform (`const.HASS_COLOR_MODE_*`, `const.py` is not under `src/`). -/
inductive ColorMode
  | hs
  | xy
  | rgb
  | rgbw
  | rgbww
  | colorTemp
  | white
  | brightness
  | onoff
  deriving DecidableEq, Repr

/-- The raw attribute mapping fetched from Home Assistant
(`hass_state_dict` in the source): a `state` string plus an attributes
dictionary whose keys may be missing (`.get` returns `None`). -/
structure HassAttributes where
  brightness : Option Int := none
  color_temp : Option Int := none
  hs_color : Option (Int × Int) := none
  xy_color : Option (Rat × Rat) := none
  rgb_color : Option (Int × Int × Int) := none
  supported_color_modes : List ColorMode := []
  deriving DecidableEq, Repr, Inhabited

/-- `hass_state_dict` as used by the extraction chain. -/
structure HassStateDict where
  state : String
  attributes : HassAttributes := {}
  deriving DecidableEq, Repr, Inhabited

/-- Modelled from the spec: `const.HASS_STATE_ON` (from `const.py`, not under
`src/`), the state string meaning the light is on. -/
def HASS_STATE_ON : String := "on"

/-- Modelled from the spec: `const.HASS_STATE_UNAVAILABLE` (from `const.py`,
not under `src/`), the state string meaning the light is unreachable. -/
def HASS_STATE_UNAVAILABLE : String := "unavailable"

/-- Python exceptions raised by the embedded code paths. -/
inductive PyError
  | typeError
  | attributeError
  deriving DecidableEq, Repr

/-- The slice of the light's stored configuration the device reads:
`config.get("throttle")` and `config.get("hass_state", {})`.  A missing
`hass_state` block behaves as the all-absent `DeviceState`. -/
structure LightConfig where
  throttle : Option Int := none
  hass_state : DeviceState := {}
  deriving DecidableEq, Repr, Inhabited

/-- The mutable slots of one device instance (`OnOffDevice.__init__`):
throttle setting, throttle clock, default transition, the three
`DeviceState` slots and the persisted `config["hass_state"]` block. -/
structure Device where
  throttle_ms : Option Int
  last_update : Rat
  default_transition : Rat
  hass_state : Option DeviceState := none
  control_state : Option DeviceState := none
  config_state : Option DeviceState := none
  config_hass_state : DeviceState := {}
  deriving DecidableEq, Repr

/-- `OnOffDevice.__init__` as far as the claims need it.  The constant
`const.DEFAULT_TRANSITION_SECONDS` is from `const.py` (not under `src/`), so
it is taken as the parameter `dts`.  The line
`if self._throttle_ms > self._default_transition:` compares
`config.get("throttle")` against a float, which raises `TypeError` when the
throttle setting is absent (`None`). -/
def initDevice (dts nowTs : Rat) (config : LightConfig) : Except PyError Device :=
  match config.throttle with
  | none => Except.error PyError.typeError
  | some t =>
      let dt := if (t : Rat) > dts then (t : Rat) / 1000 else dts
      Except.ok
        { throttle_ms := some t
          last_update := nowTs
          default_transition := dt
          hass_state := none
          control_state := none
          config_state := none
          config_hass_state := config.hass_state }

/-- `OnOffDevice._update_device_state` with `full_update=True`: a fresh
`DeviceState` holding only power and reachability derived from the state
string. -/
def onOffExtract (dict : HassStateDict) : DeviceState :=
  { power_state := some (dict.state == HASS_STATE_ON)
    reachable := some (dict.state != HASS_STATE_UNAVAILABLE) }

/-- `OnOffDevice._update_device_state`: replace `_hass_state` wholesale when
`full_update` is set, otherwise leave it untouched. -/
def onOffStep (dict : HassStateDict) (full : Bool) (s : DeviceState) : DeviceState :=
  if full then onOffExtract dict else s

/-- The field mutation performed by `BrightnessDevice._update_device_state`
after its `super()` call. -/
def brightnessStep (dict : HassStateDict) (s : DeviceState) : DeviceState :=
  { s with brightness := dict.attributes.brightness }

/-- The field mutation performed by `CTDevice._update_device_state` after its
`super()` call. -/
def ctStep (dict : HassStateDict) (s : DeviceState) : DeviceState :=
  { s with color_temp := dict.attributes.color_temp }

/-- The field mutations performed by `RGBDevice._update_device_state` after
its `super()` call. -/
def colorStep (dict : HassStateDict) (s : DeviceState) : DeviceState :=
  { s with
    hue_saturation := dict.attributes.hs_color
    xy_color := dict.attributes.xy_color
    rgb_color := dict.attributes.rgb_color }

/-- `_update_device_state` dispatched on a plain `OnOffDevice` instance. -/
def onOffDeviceUpdate (dict : HassStateDict) (full : Bool) (s : DeviceState) : DeviceState :=
  onOffStep dict full s

/-- `_update_device_state` dispatched on a `BrightnessDevice` instance
(method chain `Brightness -> OnOff`). -/
def brightnessDeviceUpdate (dict : HassStateDict) (full : Bool) (s : DeviceState) : DeviceState :=
  brightnessStep dict (onOffStep dict full s)

/-- `_update_device_state` dispatched on a `CTDevice` instance
(method chain `CT -> Brightness -> OnOff`). -/
def ctDeviceUpdate (dict : HassStateDict) (full : Bool) (s : DeviceState) : DeviceState :=
  ctStep dict (brightnessStep dict (onOffStep dict full s))

/-- `_update_device_state` dispatched on an `RGBDevice` instance
(method chain `RGB -> Brightness -> OnOff`); on an `RGBWDevice` instance the
explicit call `RGBDevice._update_device_state(self, ...)` resolves to the
same chain, since `BrightnessDevice` follows `RGBDevice` in the MRO. -/
def rgbDeviceUpdate (dict : HassStateDict) (full : Bool) (s : DeviceState) : DeviceState :=
  colorStep dict (brightnessStep dict (onOffStep dict full s))

/-- `CTDevice._update_device_state(self, full)` invoked on an `RGBWDevice`
instance: by Python's MRO (`RGBW, CT, RGB, Brightness, OnOff`), the
`super()` call inside `CTDevice` resolves to `RGBDevice`, so the chain is
`CT -> RGB -> Brightness -> OnOff`. -/
def ctOnRgbwUpdate (dict : HassStateDict) (full : Bool) (s : DeviceState) : DeviceState :=
  ctStep dict (colorStep dict (brightnessStep dict (onOffStep dict full s)))

/-- `RGBWDevice._update_device_state`: runs the colour-temperature chain with
`full_update=True`, then the colour chain with `full_update=False`; the
incoming `full_update` argument is ignored (both flags are hardcoded). -/
def rgbwDeviceUpdate (dict : HassStateDict) (_full : Bool) (s : DeviceState) : DeviceState :=
  rgbDeviceUpdate dict false (ctOnRgbwUpdate dict true s)

/-- The five concrete device classes the factory can instantiate. -/
inductive DeviceClass
  | onOffDevice
  | brightnessDevice
  | ctDevice
  | rgbDevice
  | rgbwDevice
  deriving DecidableEq, Repr

/-- The `_update_device_state` chain of each concrete class. -/
def chainOf : DeviceClass → HassStateDict → Bool → DeviceState → DeviceState
  | DeviceClass.onOffDevice => onOffDeviceUpdate
  | DeviceClass.brightnessDevice => brightnessDeviceUpdate
  | DeviceClass.ctDevice => ctDeviceUpdate
  | DeviceClass.rgbDevice => rgbDeviceUpdate
  | DeviceClass.rgbwDevice => rgbwDeviceUpdate

/-- The per-field priority chain of `_async_update_config_states`:
`if self._hass_state and getattr(self._hass_state, state) is not None`, then
the same for `self._control_state`, else
`self._config.get("hass_state", {}).get(state, None)`. -/
def prioVal (h c p : Option α) : Option α :=
  match h with
  | some v => some v
  | none =>
      match c with
      | some v => some v
      | none => p

/-- The best value of one attribute for a device, per
`_async_update_config_states`. -/
def bestValue (d : Device) (get : DeviceState → Option α) : Option α :=
  prioVal (d.hass_state.bind get) (d.control_state.bind get) (get d.config_hass_state)

/-- The `save_state` dictionary built by `_async_update_config_states`,
one `bestValue` per entry of `ALL_STATES`. -/
def mergedState (d : Device) : DeviceState :=
  { power_state := bestValue d DeviceState.power_state
    reachable := bestValue d DeviceState.reachable
    brightness := bestValue d DeviceState.brightness
    color_temp := bestValue d DeviceState.color_temp
    hue_saturation := bestValue d DeviceState.hue_saturation
    xy_color := bestValue d DeviceState.xy_color
    rgb_color := bestValue d DeviceState.rgb_color
    effect := bestValue d DeviceState.effect
    flash := bestValue d DeviceState.flash
    transition_seconds := bestValue d DeviceState.transition_seconds }

/-- `OnOffDevice._async_update_config_states`: store `save_state` into
`config["hass_state"]`, rebuild `_config_state` from it, and persist the
config (the persisted write is the new `config_hass_state`). -/
def updateConfigStates (d : Device) : Device :=
  let s := mergedState d
  { d with config_hass_state := s, config_state := some s }

/-- `OnOffDevice.async_update_state` with the default `full_update=True`
(the only value used by callers in the source): fetch `dict`, rebuild
`_hass_state` through the class's `_update_device_state` chain, then
reconcile and persist.  With `full_update=True` the chain discards the prior
`_hass_state`, so the `getD` default is never observable. -/
def asyncUpdateState (upd : HassStateDict → Bool → DeviceState → DeviceState)
    (dict : HassStateDict) (d : Device) : Device :=
  updateConfigStates { d with hass_state := some (upd dict true (d.hass_state.getD {})) }

/-- `OnOffDevice._async_update_allowed`: unthrottled when the throttle
setting is `None` or `0`; otherwise denied when the wanted state equals the
current state or the last update was less than `throttle_ms` milliseconds
ago; when allowed, the throttle clock is advanced to `now`. -/
def updateAllowed (now : Rat) (d : Device) : Bool × Device :=
  match d.throttle_ms with
  | none => (true, d)
  | some t =>
      if t = 0 then (true, d)
      else if d.config_state = d.control_state then (false, d)
      else if now - d.last_update < (t : Rat) / 1000 then (false, d)
      else (true, { d with last_update := now })

/-- An outbound platform command: `async_turn_on` or `async_turn_off`,
carrying the control state it serialized. -/
inductive PlatformCall
  | turnOn (data : DeviceState)
  | turnOff (data : DeviceState)
  deriving DecidableEq, Repr

/-- Outcome of one `async_execute` run: the device afterwards, the platform
calls attempted, and whether an exception propagated to the caller. -/
structure ExecResult where
  device : Device
  calls : List PlatformCall
  failed : Bool
  deriving DecidableEq, Repr

/-- `OnOffDevice.async_execute`.  `pf` tells whether the platform call (when
one is attempted) raises; an exception propagates immediately, skipping the
statements after the `await`.  `if self._control_state.power_state:` treats
an absent power state as falsy, hence the `= some true` test. -/
def asyncExecute (now : Rat) (pf : Bool) (d : Device) : ExecResult :=
  let r := updateAllowed now d
  let d1 := r.2
  if r.1 then
    match d1.control_state with
    | some c =>
        let call :=
          if c.power_state = some true then PlatformCall.turnOn c else PlatformCall.turnOff c
        if pf then { device := d1, calls := [call], failed := true }
        else
          { device := { updateConfigStates d1 with control_state := none }
            calls := [call]
            failed := false }
    | none =>
        { device := { updateConfigStates d1 with control_state := none }
          calls := []
          failed := false }
  else { device := { d1 with control_state := none }, calls := [], failed := false }

/-- `OnOffDevice._new_control_state`: a fresh control state carrying only the
last known power state (crashes upstream if `_config_state` is `None`, which
the callers below surface as `attributeError`). -/
def newControlState (cs : DeviceState) : DeviceState :=
  { power_state := cs.power_state }

/-- The `if not self._control_state: self._control_state =
self._new_control_state()` prelude shared by every setter, returning the
device together with the control state the setter will mutate. -/
def ensureControlState (d : Device) : Except PyError (Device × DeviceState) :=
  match d.control_state with
  | some c => Except.ok (d, c)
  | none =>
      match d.config_state with
      | some cs =>
          let c := newControlState cs
          Except.ok ({ d with control_state := some c }, c)
      | none => Except.error PyError.attributeError

/-- A trait setter body: ensure a control state exists, then mutate one of
its fields. -/
def withControl (f : DeviceState → DeviceState) (d : Device) : Except PyError Device :=
  match ensureControlState d with
  | Except.error e => Except.error e
  | Except.ok (d1, c) => Except.ok { d1 with control_state := some (f c) }

/-- Modelled from the spec: `emulated_hue.utils.clamp` (not under `src/`),
clamping a value into `[lo, hi]` (`setBrightness(300)` stages 255,
`setBrightness(-5)` stages 0). -/
def clamp (v lo hi : Int) : Int :=
  max lo (min v hi)

/-- `BrightnessDevice.set_brightness`. -/
def set_brightness (v : Int) (d : Device) : Except PyError Device :=
  withControl (fun c => { c with brightness := some (clamp v 0 255) }) d

/-- `BrightnessDevice.set_effect`. -/
def set_effect (e : String) (d : Device) : Except PyError Device :=
  withControl (fun c => { c with effect := some e }) d

/-- `BrightnessDevice.set_flash`. -/
def set_flash (f : String) (d : Device) : Except PyError Device :=
  withControl (fun c => { c with flash := some f }) d

/-- `CTDevice.set_color_temperature`. -/
def set_color_temperature (v : Int) (d : Device) : Except PyError Device :=
  withControl (fun c => { c with color_temp := some v }) d

/-- `RGBDevice.set_hue_sat` (dropping the `int(...)` coercions, the inputs
being integers here). -/
def set_hue_sat (h s : Int) (d : Device) : Except PyError Device :=
  withControl (fun c => { c with hue_saturation := some (h, s) }) d

/-- `RGBDevice.set_xy`. -/
def set_xy (x y : Rat) (d : Device) : Except PyError Device :=
  withControl (fun c => { c with xy_color := some (x, y) }) d

/-- `RGBDevice.set_rgb`. -/
def set_rgb (r g b : Int) (d : Device) : Except PyError Device :=
  withControl (fun c => { c with rgb_color := some (r, g, b) }) d

/-- `RGBDevice.set_flash`: the inherited flash write followed by
`set_hue_sat(0, 0)`. -/
def rgb_set_flash (f : String) (d : Device) : Except PyError Device :=
  match set_flash f d with
  | Except.error e => Except.error e
  | Except.ok d1 => set_hue_sat 0 0 d1

/-- `OnOffDevice.set_transition_ms`: initializes `_control_state` if absent,
floors the requested time at `_throttle_ms` (a comparison that raises
`TypeError` when the throttle setting is `None`), then writes
`transition_seconds` on `_config_state` — the effective state slot. -/
def set_transition_ms (ms : Rat) (d : Device) : Except PyError Device :=
  match ensureControlState d with
  | Except.error e => Except.error e
  | Except.ok (d1, _) =>
      match d1.throttle_ms with
      | none => Except.error PyError.typeError
      | some t =>
          let ms2 := if ms < (t : Rat) then (t : Rat) else ms
          match d1.config_state with
          | some cs =>
              Except.ok
                { d1 with config_state := some { cs with transition_seconds := some (ms2 / 1000) } }
          | none => Except.error PyError.attributeError

/-- `OnOffDevice.set_transition_seconds`. -/
def set_transition_seconds (s : Rat) (d : Device) : Except PyError Device :=
  set_transition_ms (s * 1000) d

/-- `OnOffDevice.turn_on`: replace `_control_state` wholesale. -/
def turn_on (d : Device) : Device :=
  { d with
    control_state :=
      some { power_state := some true, transition_seconds := some d.default_transition } }

/-- `OnOffDevice.turn_off`: replace `_control_state` wholesale. -/
def turn_off (d : Device) : Device :=
  { d with
    control_state :=
      some { power_state := some false, transition_seconds := some d.default_transition } }

/-- The first inline mode list of `async_get_device`
(`HASS_COLOR_MODE_HS/XY/RGB/RGBW/RGBWW`). -/
def colorModesColor : List ColorMode :=
  [ColorMode.hs, ColorMode.xy, ColorMode.rgb, ColorMode.rgbw, ColorMode.rgbww]

/-- The second inline mode list of `async_get_device`
(`HASS_COLOR_MODE_COLOR_TEMP/RGBW/RGBWW/WHITE`). -/
def colorModesTemp : List ColorMode :=
  [ColorMode.colorTemp, ColorMode.rgbw, ColorMode.rgbww, ColorMode.white]

/-- The `if/elif` cascade of `async_get_device` that picks the device class
from the entity's reported `supported_color_modes`. -/
def deviceClassFor (modes : List ColorMode) : DeviceClass :=
  if (modes.any fun m => colorModesColor.contains m)
      && (modes.any fun m => colorModesTemp.contains m) then
    DeviceClass.rgbwDevice
  else if modes.any fun m => [ColorMode.hs, ColorMode.xy, ColorMode.rgb].contains m then
    DeviceClass.rgbDevice
  else if modes.contains ColorMode.colorTemp then
    DeviceClass.ctDevice
  else if modes.contains ColorMode.brightness then
    DeviceClass.brightnessDevice
  else
    DeviceClass.onOffDevice

/-- Written from the spec (claim C7 wording): is this a "color" mode. -/
def isColorModeSpec (m : ColorMode) : Bool :=
  colorModesColor.contains m

/-- Written from the spec (claim C7 wording): is this a
"temperature-or-white" mode. -/
def isTempOrWhiteSpec (m : ColorMode) : Bool :=
  colorModesTemp.contains m

/-- Written from the spec (claim C7 wording): combined variant when a color
mode and a temperature-or-white mode are both present; otherwise any color
mode gives the full-color variant; otherwise color-temp; otherwise
brightness; otherwise on/off. -/
def deviceClassSpec (modes : List ColorMode) : DeviceClass :=
  if modes.any isColorModeSpec && modes.any isTempOrWhiteSpec then
    DeviceClass.rgbwDevice
  else if modes.any isColorModeSpec then
    DeviceClass.rgbDevice
  else if modes.contains ColorMode.colorTemp then
    DeviceClass.ctDevice
  else if modes.contains ColorMode.brightness then
    DeviceClass.brightnessDevice
  else
    DeviceClass.onOffDevice

/-- Written from the spec (claim C1 wording): platform value if present, else
pending value if present, else the persisted value. -/
def specPriority (platform pending persisted : Option α) : Option α :=
  if platform.isSome then platform
  else if pending.isSome then pending
  else persisted

/-- Names of the ten `DeviceState` attributes (`ALL_STATES` in
`models.py`). -/
inductive StateField
  | power
  | reach
  | bri
  | ct
  | hueSat
  | xy
  | rgb
  | eff
  | fl
  | trans
  deriving DecidableEq, Repr

/-- Values a `DeviceState` attribute can carry, wrapped in one sum so that
field access is uniform across the ten attributes. -/
inductive FieldValue
  | bv (x : Bool)
  | iv (x : Int)
  | pv (x : Int × Int)
  | qv (x : Rat × Rat)
  | tv (x : Int × Int × Int)
  | sv (x : String)
  | rv (x : Rat)
  deriving DecidableEq, Repr

/-- Uniform attribute accessor (`getattr(state, field)`). -/
def fieldGet : StateField → DeviceState → Option FieldValue
  | StateField.power, s => s.power_state.map FieldValue.bv
  | StateField.reach, s => s.reachable.map FieldValue.bv
  | StateField.bri, s => s.brightness.map FieldValue.iv
  | StateField.ct, s => s.color_temp.map FieldValue.iv
  | StateField.hueSat, s => s.hue_saturation.map FieldValue.pv
  | StateField.xy, s => s.xy_color.map FieldValue.qv
  | StateField.rgb, s => s.rgb_color.map FieldValue.tv
  | StateField.eff, s => s.effect.map FieldValue.sv
  | StateField.fl, s => s.flash.map FieldValue.sv
  | StateField.trans, s => s.transition_seconds.map FieldValue.rv

/-! ### Helper lemmas -/

theorem prioVal_map (a b p : Option α) (g : α → β) :
    (prioVal a b p).map g = prioVal (a.map g) (b.map g) (p.map g) := by
  cases a <;> cases b <;> simp [prioVal]

theorem prioVal_eq_specPriority (a b p : Option α) : prioVal a b p = specPriority a b p := by
  cases a <;> cases b <;> simp [prioVal, specPriority]

theorem bind_map_swap (o : Option σ) (g : σ → Option α) (e : α → β) :
    o.bind (fun s => (g s).map e) = (o.bind g).map e := by
  cases o <;> simp

theorem prioVal_idem (a b p : Option α) : prioVal a b (prioVal a b p) = prioVal a b p := by
  cases a <;> cases b <;> simp [prioVal]

theorem updateAllowed_preserves (now : Rat) (d : Device) :
    (updateAllowed now d).2.control_state = d.control_state
    ∧ (updateAllowed now d).2.config_state = d.config_state
    ∧ (updateAllowed now d).2.config_hass_state = d.config_hass_state
    ∧ (updateAllowed now d).2.hass_state = d.hass_state := by
  unfold updateAllowed
  cases d.throttle_ms with
  | none => simp
  | some t =>
      by_cases h0 : t = 0
      · simp [h0]
      · by_cases h1 : d.config_state = d.control_state
        · simp [h0, h1]
        · by_cases h2 : now - d.last_update < (t : Rat) / 1000
          · simp [h0, h1, h2]
          · simp [h0, h1, h2]

theorem chainOf_full_const (cls : DeviceClass) (dict : HassStateDict) (s s' : DeviceState) :
    chainOf cls dict true s = chainOf cls dict true s' := by
  cases cls <;> rfl

theorem mergedState_persist_stable (d : Device) :
    mergedState
        { d with config_hass_state := mergedState d, config_state := some (mergedState d) } =
      mergedState d := by
  simp [mergedState, bestValue, prioVal_idem]

/-! ### Claim theorems -/

/-- C10: `turn_on()` / `turn_off()` replace `pendingCommand` wholesale with a
state holding exactly `powerState` (`true` / `false`) and
`transitionSeconds` set to the device's default transition; every field
staged earlier is discarded, and no other device slot changes. -/
theorem turn_on_off_wholesale_replace (d : Device) :
    (turn_on d).control_state =
        some ⟨some true, none, none, none, none, none, none, none, none,
          some d.default_transition⟩
    ∧ (turn_off d).control_state =
        some ⟨some false, none, none, none, none, none, none, none, none,
          some d.default_transition⟩
    ∧ (turn_on d).config_state = d.config_state
    ∧ (turn_off d).config_state = d.config_state
    ∧ (turn_on d).hass_state = d.hass_state
    ∧ (turn_off d).hass_state = d.hass_state :=
  ⟨rfl, rfl, rfl, rfl, rfl, rfl⟩

/-- C6: on the combined variant, a full refresh runs the colour-temperature
extraction first with `full_update=True` — that pass alone derives
`powerState` and `reachable` from the state string — and then the
full-colour extraction with `full_update=False`, which leaves `powerState`,
`reachable` and `colorTemp` of its input untouched. -/
theorem rgbw_extraction_ordering (dict : HassStateDict) (full : Bool) (s t : DeviceState)
    (d : Device) :
    rgbwDeviceUpdate dict full s = rgbDeviceUpdate dict false (ctOnRgbwUpdate dict true s)
    ∧ (ctOnRgbwUpdate dict true s).power_state = some (dict.state == HASS_STATE_ON)
    ∧ (ctOnRgbwUpdate dict true s).reachable = some (dict.state != HASS_STATE_UNAVAILABLE)
    ∧ (rgbDeviceUpdate dict false t).power_state = t.power_state
    ∧ (rgbDeviceUpdate dict false t).reachable = t.reachable
    ∧ (rgbDeviceUpdate dict false t).color_temp = t.color_temp
    ∧ (asyncUpdateState (chainOf DeviceClass.rgbwDevice) dict d).hass_state =
        some (rgbwDeviceUpdate dict true (d.hass_state.getD {})) :=
  ⟨rfl, rfl, rfl, rfl, rfl, rfl, rfl⟩

/-- C7: the factory's first-match precedence over the unordered set of
reported colour modes coincides, for every mode list, with the
spec-described precedence (combined variant when a colour mode and a
temperature-or-white mode are both present; else full-colour for any colour
mode; else colour-temperature; else brightness; else on/off). -/
theorem factory_type_inference_precedence (modes : List ColorMode) :
    deviceClassFor modes = deviceClassSpec modes := by
  have hIC : modes.any isColorModeSpec = modes.any fun m => colorModesColor.contains m := rfl
  have hIT : modes.any isTempOrWhiteSpec = modes.any fun m => colorModesTemp.contains m := rfl
  unfold deviceClassFor deviceClassSpec
  rw [hIC, hIT]
  cases h1 : modes.any fun m => colorModesColor.contains m with
  | false =>
      have h3 : (modes.any fun m =>
          [ColorMode.hs, ColorMode.xy, ColorMode.rgb].contains m) = false := by
        cases h : modes.any fun m => [ColorMode.hs, ColorMode.xy, ColorMode.rgb].contains m
        · rfl
        · rcases List.any_eq_true.mp h with ⟨m, hm, hmc⟩
          have hc5 : colorModesColor.contains m = true := by
            revert hmc
            cases m <;> decide
          have hany := List.any_eq_true.mpr ⟨m, hm, hc5⟩
          rw [h1] at hany
          exact absurd hany (by decide)
      simp only [h1, h3]
  | true =>
      cases h2 : modes.any fun m => colorModesTemp.contains m with
      | true =>
          simp [h1, h2]
      | false =>
          have h3 : (modes.any fun m =>
              [ColorMode.hs, ColorMode.xy, ColorMode.rgb].contains m) = true := by
            rcases List.any_eq_true.mp h1 with ⟨m, hm, hmc⟩
            have hmt : colorModesTemp.contains m = false := by
              cases hx : colorModesTemp.contains m
              · rfl
              · have hany := List.any_eq_true.mpr ⟨m, hm, hx⟩
                rw [h2] at hany
                exact absurd hany (by decide)
            refine List.any_eq_true.mpr ⟨m, hm, ?_⟩
            revert hmc hmt
            cases m <;> decide
          simp only [h1, h2, h3]

theorem prioVal_fieldGet (hO cO : Option DeviceState) (chs : DeviceState)
    (g : DeviceState → Option α) (e : α → β) :
    (prioVal (hO.bind g) (cO.bind g) (g chs)).map e =
      specPriority (hO.bind fun s => (g s).map e) (cO.bind fun s => (g s).map e)
        ((g chs).map e) := by
  rw [bind_map_swap, bind_map_swap, ← prioVal_eq_specPriority, ← prioVal_map]

/-- C1: for every `DeviceState` attribute, the reconciled effective state run
by every refresh and by every execute that reaches reconciliation carries
the platform value when present, else the pending-command value when
present, else the previously persisted value — whatever the lower-priority
sources hold. -/
theorem merge_priority_effective_state :
    (∀ (d : Device) (f : StateField),
        fieldGet f (mergedState d) =
          specPriority (d.hass_state.bind (fieldGet f)) (d.control_state.bind (fieldGet f))
            (fieldGet f d.config_hass_state))
    ∧ (∀ d : Device,
        (updateConfigStates d).config_state = some (mergedState d)
        ∧ (updateConfigStates d).config_hass_state = mergedState d)
    ∧ (∀ (cls : DeviceClass) (dict : HassStateDict) (d : Device),
        (asyncUpdateState (chainOf cls) dict d).config_state =
          some (mergedState
            { d with hass_state := some (chainOf cls dict true (d.hass_state.getD {})) }))
    ∧ (∀ (now : Rat) (d : Device), (updateAllowed now d).1 = true →
        (asyncExecute now false d).device.config_state =
          some (mergedState (updateAllowed now d).2)) := by
  refine ⟨?_, fun d => ⟨rfl, rfl⟩, fun cls dict d => rfl, ?_⟩
  · intro d f
    cases f <;> exact prioVal_fieldGet _ _ _ _ _
  · intro now d h
    cases hcs : (updateAllowed now d).2.control_state with
    | none => simp [asyncExecute, h, hcs, updateConfigStates]
    | some c => simp [asyncExecute, h, hcs, updateConfigStates]

/-- C9: refresh is idempotent: with the platform returning the same
attribute mapping and no setter in between, a second refresh leaves the
effective state identical and writes the identical persisted
`hass_state` block. -/
theorem refresh_idempotent (cls : DeviceClass) (dict : HassStateDict) (d : Device) :
    (asyncUpdateState (chainOf cls) dict (asyncUpdateState (chainOf cls) dict d)).config_state =
        (asyncUpdateState (chainOf cls) dict d).config_state
    ∧ (asyncUpdateState (chainOf cls) dict
          (asyncUpdateState (chainOf cls) dict d)).config_hass_state =
        (asyncUpdateState (chainOf cls) dict d).config_hass_state
    ∧ (asyncUpdateState (chainOf cls) dict (asyncUpdateState (chainOf cls) dict d)).hass_state =
        (asyncUpdateState (chainOf cls) dict d).hass_state := by
  cases cls <;>
    simp [asyncUpdateState, updateConfigStates, chainOf, onOffDeviceUpdate,
      brightnessDeviceUpdate, ctDeviceUpdate, rgbDeviceUpdate, rgbwDeviceUpdate, ctOnRgbwUpdate,
      onOffStep, brightnessStep, ctStep, colorStep, mergedState, bestValue, prioVal_idem]

/-- C5: with a non-zero throttle, an execute whose effective state equals the
pending command, or which arrives before `throttleMs` has elapsed, is
denied: no platform call is made, the effective state is untouched, the
pending command is cleared, and no error is raised. -/
theorem throttled_execute_silent_noop (now : Rat) (pf : Bool) (d : Device) (t : Int)
    (ht : d.throttle_ms = some t) (ht0 : t ≠ 0)
    (hdeny : d.config_state = d.control_state ∨ now - d.last_update < (t : Rat) / 1000) :
    asyncExecute now pf d =
      { device := { d with control_state := none }, calls := [], failed := false } := by
  have hAllow : updateAllowed now d = (false, d) := by
    unfold updateAllowed
    rw [ht]
    rcases hdeny with h | h
    · simp [ht0, h]
    · by_cases heq : d.config_state = d.control_state
      · simp [ht0, heq]
      · simp [ht0, heq, h]
  simp [asyncExecute, hAllow]

/-- C3: the claim that a device with an absent throttle setting is
constructed successfully fails on the code: `__init__` compares
`None > self._default_transition`, which raises `TypeError`.  With the
throttle setting equal to `0` (and, had construction been reachable, with it
absent) the throttle check in `_async_update_allowed` does always allow the
update, as the claim states. -/
theorem throttle_none_init_raises :
    (∀ (dts now : Rat) (hs0 : DeviceState),
        initDevice dts now { throttle := none, hass_state := hs0 } =
          Except.error PyError.typeError)
    ∧ (∀ (now : Rat) (d : Device),
        d.throttle_ms = none ∨ d.throttle_ms = some 0 → updateAllowed now d = (true, d)) := by
  constructor
  · intro dts now hs0
    rfl
  · rintro now d (h | h) <;> simp [updateAllowed, h]

/-- A throttle-free device with a populated platform slot and a staged
command, used to evaluate concrete refresh and execute runs. -/
def failDemoDevice : Device :=
  { throttle_ms := none
    last_update := 0
    default_transition := 1
    hass_state := some { power_state := some true }
    control_state := some { power_state := some true }
    config_state := none
    config_hass_state := {} }

/-- C2 is false on the code: `async_execute` has no try/finally, so when the
platform call raises, the exception propagates before the cleanup
statements.  At this input the pending command is not cleared and the
reconciliation merge does not run (the effective state stays `None` even
though running the merge would have produced a value). -/
theorem execute_failure_cleanup_skipped :
    (asyncExecute 0 true failDemoDevice).failed = true
    ∧ (asyncExecute 0 true failDemoDevice).device.control_state =
        some { power_state := some true }
    ∧ (asyncExecute 0 true failDemoDevice).device.config_state = none
    ∧ (updateConfigStates failDemoDevice).config_state ≠ none := by
  refine ⟨rfl, rfl, rfl, ?_⟩
  simp [updateConfigStates]

/-- C2 amended: when the platform call made during execute raises, the error
propagates to the caller and the cleanup is skipped: the pending command is
left in place (not cleared) and the reconciliation merge and persist steps
do not run; only the throttle clock may have advanced. -/
theorem execute_failure_keeps_pending (now : Rat) (d : Device) (c : DeviceState)
    (hAllow : (updateAllowed now d).1 = true) (hc : d.control_state = some c) :
    asyncExecute now true d =
      { device := (updateAllowed now d).2
        calls := [if c.power_state = some true then PlatformCall.turnOn c
          else PlatformCall.turnOff c]
        failed := true }
    ∧ (asyncExecute now true d).device.control_state = some c
    ∧ (asyncExecute now true d).device.config_state = d.config_state
    ∧ (asyncExecute now true d).device.config_hass_state = d.config_hass_state := by
  obtain ⟨p1, p2, p3, p4⟩ := updateAllowed_preserves now d
  have hc2 : (updateAllowed now d).2.control_state = some c := by
    rw [p1, hc]
  refine ⟨?_, ?_, ?_, ?_⟩ <;> simp [asyncExecute, hAllow, hc2, p2, p3]

theorem execute_failure_keeps_pending_witness :
    (updateAllowed 0 failDemoDevice).1 = true
    ∧ (asyncExecute 0 true failDemoDevice).device.control_state =
        some { power_state := some true } :=
  ⟨rfl,
    (execute_failure_keeps_pending 0 failDemoDevice { power_state := some true } rfl rfl).2.1⟩

theorem merge_priority_effective_state_witness :
    (updateAllowed 0 failDemoDevice).1 = true
    ∧ (asyncExecute 0 false failDemoDevice).device.config_state =
        some (mergedState (updateAllowed 0 failDemoDevice).2) :=
  ⟨rfl, merge_priority_effective_state.2.2.2 0 failDemoDevice rfl⟩

/-- A device with a one-second throttle and no staged change. -/
def throttleDemoDevice : Device :=
  { throttle_ms := some 1000
    last_update := 0
    default_transition := 1
    hass_state := none
    control_state := none
    config_state := none
    config_hass_state := {} }

theorem throttled_execute_silent_noop_witness :
    asyncExecute 5 false throttleDemoDevice =
      { device := { throttleDemoDevice with control_state := none }
        calls := []
        failed := false } :=
  throttled_execute_silent_noop 5 false throttleDemoDevice 1000 rfl (by decide) (Or.inl rfl)

/-- A device whose configuration sets the throttle to `0`. -/
def unthrottledDemoDevice : Device :=
  { throttle_ms := some 0
    last_update := 0
    default_transition := 1 }

theorem throttle_none_init_raises_witness :
    initDevice 1 0 { throttle := none, hass_state := {} } = Except.error PyError.typeError
    ∧ updateAllowed 7 unthrottledDemoDevice = (true, unthrottledDemoDevice) :=
  ⟨throttle_none_init_raises.1 1 0 {},
    throttle_none_init_raises.2 7 unthrottledDemoDevice (Or.inr rfl)⟩

/-- A device whose effective state is already populated and with no staged
command; used to exercise the setter contract. -/
def setterDemoDevice : Device :=
  { throttle_ms := some 0
    last_update := 0
    default_transition := 1
    hass_state := none
    control_state := none
    config_state := some { power_state := some true }
    config_hass_state := {} }

/-- C8: every trait setter called with an absent pending command first
creates a fresh control state carrying only the effective power state (every
other field absent), then writes its field; brightness is clamped into
`[0, 255]`. -/
theorem setter_initializes_pending_power_only (d : Device) (cs : DeviceState)
    (hctl : d.control_state = none) (hcfg : d.config_state = some cs) :
    newControlState cs = { power_state := cs.power_state }
    ∧ (∀ v : Int,
        set_brightness v d =
          Except.ok
            { d with
              control_state := some { power_state := cs.power_state, brightness := some (clamp v 0 255) } }
        ∧ 0 ≤ clamp v 0 255 ∧ clamp v 0 255 ≤ 255)
    ∧ (∀ e : String,
        set_effect e d =
          Except.ok
            { d with
              control_state := some { power_state := cs.power_state, effect := some e } })
    ∧ (∀ fv : String,
        set_flash fv d =
          Except.ok
            { d with
              control_state := some { power_state := cs.power_state, flash := some fv } })
    ∧ (∀ v : Int,
        set_color_temperature v d =
          Except.ok
            { d with
              control_state := some { power_state := cs.power_state, color_temp := some v } })
    ∧ (∀ hv sv : Int,
        set_hue_sat hv sv d =
          Except.ok
            { d with
              control_state := some { power_state := cs.power_state, hue_saturation := some (hv, sv) } })
    ∧ (∀ x y : Rat,
        set_xy x y d =
          Except.ok
            { d with
              control_state := some { power_state := cs.power_state, xy_color := some (x, y) } })
    ∧ (∀ r g b : Int,
        set_rgb r g b d =
          Except.ok
            { d with
              control_state := some { power_state := cs.power_state, rgb_color := some (r, g, b) } }) := by
  refine ⟨rfl, ?_, ?_, ?_, ?_, ?_, ?_, ?_⟩
  · intro v
    refine ⟨?_, le_max_left _ _, max_le (by norm_num) (min_le_right _ _)⟩
    simp [set_brightness, withControl, ensureControlState, newControlState, hctl, hcfg]
  · intro e
    simp [set_effect, withControl, ensureControlState, newControlState, hctl, hcfg]
  · intro fv
    simp [set_flash, withControl, ensureControlState, newControlState, hctl, hcfg]
  · intro v
    simp [set_color_temperature, withControl, ensureControlState, newControlState, hctl, hcfg]
  · intro hv sv
    simp [set_hue_sat, withControl, ensureControlState, newControlState, hctl, hcfg]
  · intro x y
    simp [set_xy, withControl, ensureControlState, newControlState, hctl, hcfg]
  · intro r g b
    simp [set_rgb, withControl, ensureControlState, newControlState, hctl, hcfg]

theorem setter_initializes_pending_power_only_witness :
    set_brightness 300 setterDemoDevice =
      Except.ok
        { setterDemoDevice with
          control_state :=
            some { power_state := some true, brightness := some (clamp 300 0 255) } }
    ∧ 0 ≤ clamp 300 0 255 ∧ clamp 300 0 255 ≤ 255 :=
  (setter_initializes_pending_power_only setterDemoDevice { power_state := some true }
    rfl rfl).2.1 300

/-- A device whose effective transition is 1 s, with no staged command. -/
def transitionDemoDevice : Device :=
  { throttle_ms := some 0
    last_update := 0
    default_transition := 1
    hass_state := none
    control_state := none
    config_state := some { power_state := some true, transition_seconds := some 1 }
    config_hass_state := {} }

/-- C4 fails on the code: `set_transition_ms` initializes the pending
command, but then writes the new transition time into `_config_state` — the
reconciled effective state — leaving the pending command's transition
absent.  Evaluated at 2000 ms on a device whose effective transition was
1 s: the effective state's transition becomes 2 s immediately, and the
staged command carries only the copied power state. -/
theorem set_transition_writes_effective_state :
    set_transition_ms 2000 transitionDemoDevice =
      Except.ok
        { transitionDemoDevice with
          control_state := some { power_state := some true }
          config_state := some { power_state := some true, transition_seconds := some 2 } } := by
  norm_num [set_transition_ms, ensureControlState, transitionDemoDevice, newControlState]
